import Mathlib

/-!
Shallow embedding of the query-translation and upsert-conflict-resolution
layer of `src/main.py` (Research DB API, FastAPI proxy over PostgREST).

The embedding covers:
* the filter translation of `list_studies` (src/main.py lines 99-121):
  the chain of `eq`, `ilike`, `gte`, `lte` and `contains` predicates built
  from the optional query parameters, in the order the source applies them;
* the order parsing of `list_studies` (lines 122-128);
* the legacy field mapping, automatic conflict-column resolution and
  error mapping of `upsert_study` (lines 186-217);
* the APIError / generic-exception to HTTP status mapping shared by both
  handlers (lines 130-138 and 212-217).

Python dictionaries are modelled as association lists of string keys and
JSON-like values; Python truthiness is modelled explicitly by `valueTruthy`.
-/

/-- JSON-like values carried in request payloads and error details. -/
inductive Value where
  | null : Value
  | str : String → Value
  | int : Int → Value
  | bool : Bool → Value
  | arr : List Value → Value
  | obj : List (String × Value) → Value

/-- A JSON object / Python dict, as an association list (keys unique in use). -/
abbrev Record := List (String × Value)

/-- Python truthiness of a value: None, empty string, 0, False, empty list
and empty dict are falsy; everything else is truthy. -/
def valueTruthy : Value → Bool
  | Value.null => false
  | Value.str s => !(s == "")
  | Value.int n => !(n == 0)
  | Value.bool b => b
  | Value.arr vs => !vs.isEmpty
  | Value.obj fs => !fs.isEmpty

/-- Dictionary lookup: `d.get(k)`, `none` when the key is absent. -/
def getField (r : Record) (k : String) : Option Value :=
  (r.find? (fun p => p.1 == k)).map (fun p => p.2)

/-- Key membership: `k in d`. -/
def hasField (r : Record) (k : String) : Bool :=
  (r.find? (fun p => p.1 == k)).isSome

/-- Key removal, as performed by `d.pop(k)`. -/
def eraseField (r : Record) (k : String) : Record :=
  r.filter (fun p => p.1 != k)

/-- Truthiness of `d.get(k)`: false when the key is absent or its value is
falsy.  This is the test `if doi:` applied in the source; the string
normalization `(x or "") if isinstance(x, str) else x` at lines 195-196
does not change the truth value and is absorbed here. -/
def fieldTruthy (r : Record) (k : String) : Bool :=
  match getField r k with
  | some v => valueTruthy v
  | none => false

/-- Membership of a single character in a string, the Python test
`"%" in title` for a one-character needle. -/
def containsChar (s : String) (c : Char) : Bool :=
  s.data.any (fun a => a == c)

/-- ASCII lowering of a string, modelling Python `str.lower()` on the
direction tokens used by the source (`asc`, `desc`, `DESC`, ...). -/
def strLower (s : String) : String :=
  String.mk (s.data.map Char.toLower)

/-- Splitting a string on the dot character, modelling `order.split(".")`.
The result is never empty: an input without dots yields the singleton of
the input itself. -/
def splitDotAux : List Char → List Char → List String
  | [], acc => [String.mk acc.reverse]
  | c :: cs, acc =>
    if c == '.' then String.mk acc.reverse :: splitDotAux cs []
    else splitDotAux cs (c :: acc)

/-- Python `s.split(".")`. -/
def splitDot (s : String) : List String :=
  splitDotAux s.data []

/-- One predicate clause applied to the remote query, a closed algebraic
value (field, operator, operand): `q.eq`, `q.ilike`, `q.gte`, `q.lte`,
`q.contains` in the source. -/
inductive Predicate where
  | eq : String → String → Predicate
  | ilike : String → String → Predicate
  | gte : String → Int → Predicate
  | lte : String → Int → Predicate
  | contains : String → List String → Predicate
deriving DecidableEq

/-- The optional query parameters of `list_studies` (src/main.py lines
71-86), together with the order string and the row limit. -/
structure FilterRequest where
  doi : Option String
  pmid : Option String
  title : Option String
  year_gte : Option Int
  year_lte : Option Int
  tag : Option String
  outcome : Option String
  order : Option String
  limit : Int
deriving DecidableEq

/-- The ILIKE pattern for the title filter (src/main.py line 107):
`title if ("%" in title or "_" in title) else f"%{title}%"`. -/
def ilikePattern (title : String) : String :=
  if containsChar title '%' || containsChar title '_' then title
  else "%" ++ title ++ "%"

/-- Predicate emitted by a truthiness-guarded optional string parameter
(`if doi:` and similar guards in the source). -/
def optStrFilter (v : Option String) (f : String → Predicate) : List Predicate :=
  match v with
  | none => []
  | some s => if s == "" then [] else [f s]

/-- Predicate emitted by a `is not None`-guarded optional integer parameter
(`if year_gte is not None:` in the source). -/
def optIntFilter (v : Option Int) (f : Int → Predicate) : List Predicate :=
  match v with
  | none => []
  | some n => [f n]

/-- The ordered predicate list built by `list_studies` (src/main.py lines
99-121): doi, pmid, title, year_gte, year_lte, tag, outcome, in the order
the source applies them to the query object. -/
def translateFilters (r : FilterRequest) : List Predicate :=
  optStrFilter r.doi (fun d => Predicate.eq "doi" d)
    ++ optStrFilter r.pmid (fun p => Predicate.eq "pmid" p)
    ++ optStrFilter r.title (fun t => Predicate.ilike "title" (ilikePattern t))
    ++ optIntFilter r.year_gte (fun y => Predicate.gte "year" y)
    ++ optIntFilter r.year_lte (fun y => Predicate.lte "year" y)
    ++ optStrFilter r.tag (fun t => Predicate.contains "tags" [t])
    ++ optStrFilter r.outcome (fun o => Predicate.contains "outcomes" [o])

/-- A sort specification: column, direction and the `nullsfirst=False`
argument passed by the source. -/
structure SortSpec where
  field : String
  descending : Bool
  nullsFirst : Bool
deriving DecidableEq

/-- Direction flag from the split order string (src/main.py line 127):
`len(parts) > 1 and parts[1].lower() == "desc"`. -/
def sortDirDesc : List String → Bool
  | _ :: d :: _ => strLower d == "desc"
  | _ => false

/-- Order parsing for a present order string (src/main.py lines 124-128):
split on the dot, the first part is the column, descending exactly when the
second part lowers to `desc`. -/
def translateSortStr (order : String) : SortSpec :=
  { field := (splitDot order).headD ""
  , descending := sortDirDesc (splitDot order)
  , nullsFirst := false }

/-- The sort specification emitted by `list_studies`: the order parameter is
guarded by `if order:`, so an absent or empty order string emits none. -/
def translateSort (order : Option String) : Option SortSpec :=
  match order with
  | none => none
  | some s => if s == "" then none else some (translateSortStr s)

/-- The column list selected by `list_studies` (src/main.py lines 95-97). -/
def studiesSelect : String :=
  "id,doi,pmid,year,study_design,n_participants,title,journal,abstract,outcomes,tags,source_url,created_at,updated_at"

/-- The complete request descriptor submitted to the backend by
`list_studies`: selected columns, ordered predicates, optional sort, limit. -/
structure QueryRequest where
  select : String
  predicates : List Predicate
  sort : Option SortSpec
  limit : Int
deriving DecidableEq

/-- Translation of a `list_studies` request into its backend descriptor. -/
def listStudiesQuery (r : FilterRequest) : QueryRequest :=
  { select := studiesSelect
  , predicates := translateFilters r
  , sort := translateSort r.order
  , limit := r.limit }

/-- An HTTP error response raised via `HTTPException(status_code, detail)`. -/
structure HTTPError where
  status : Nat
  detail : Value

/-- Outcome of the remote `execute()` call: a success payload, an `APIError`
carrying its `args` tuple, or any other exception with its message. -/
inductive BackendOutcome where
  | ok : Value → BackendOutcome
  | apiError : List Value → BackendOutcome
  | exc : String → BackendOutcome

/-- Fallback detail used when an `APIError` has no args (src/main.py lines
134 and 213). -/
def postgrestDefaultDetail : Value :=
  Value.obj [("message", Value.str "PostgREST error")]

/-- The shared result mapping of both handlers (src/main.py lines 130-138
and 204-217): success returns `res.data or []`; `APIError` becomes a 400
whose detail is `e.args[0]` when present; any other exception becomes a 500
with its message. -/
def mapBackendResult : BackendOutcome → Except HTTPError Value
  | BackendOutcome.ok data => Except.ok (if valueTruthy data then data else Value.arr [])
  | BackendOutcome.apiError args => Except.error { status := 400, detail := args.headD postgrestDefaultDetail }
  | BackendOutcome.exc msg => Except.error { status := 500, detail := Value.str msg }

/-- Execution of `list_studies` against a backend, paired with the number of
remote calls performed (always one: the query is submitted unconditionally). -/
def listStudiesTrace (backend : QueryRequest → BackendOutcome) (r : FilterRequest) :
    Except HTTPError Value × Nat :=
  (mapBackendResult (backend (listStudiesQuery r)), 1)

/-- The legacy rename performed by `upsert_study` (src/main.py lines
189-190): `if "design" in study and "study_design" not in study:
study["study_design"] = study.pop("design")`.  The pop removes the old key
and the assignment appends the new one. -/
def applyLegacyFieldMapping (study : Record) : Record :=
  if hasField study "design" && !(hasField study "study_design") then
    match getField study "design" with
    | some v => eraseField study "design" ++ [("study_design", v)]
    | none => study
  else study

/-- The validation error raised when neither identity field is usable
(src/main.py line 202). -/
def upsertValidationError : HTTPError :=
  { status := 400
  , detail := Value.str "Upsert erfordert mindestens doi oder pmid (siehe DB-Constraint)." }

/-- Automatic conflict-column selection (src/main.py lines 194-202): doi if
truthy, else pmid if truthy, else the validation error. -/
def autoConflictColumn (study : Record) : Except HTTPError String :=
  if fieldTruthy study "doi" then Except.ok "doi"
  else if fieldTruthy study "pmid" then Except.ok "pmid"
  else Except.error upsertValidationError

/-- Conflict-column resolution (src/main.py lines 193-202): the explicit
choice is kept only when truthy (`if not conflict_col:`), so an absent or
empty `on_conflict` falls back to the automatic selection. -/
def resolveConflictColumn (study : Record) (on_conflict : Option String) :
    Except HTTPError String :=
  match on_conflict with
  | none => autoConflictColumn study
  | some s => if s == "" then autoConflictColumn study else Except.ok s

/-- The fixed identity priority the automatic selection scans. -/
def identityFieldPriority : List String := ["doi", "pmid"]

/-- The upsert request descriptor submitted to the backend (src/main.py
lines 205-210), including the fixed keyword arguments of the source. -/
structure UpsertRequest where
  record : Record
  on_conflict : String
  returning : String
  ignore_duplicate_updates : Bool

/-- Pure translation stage of `upsert_study`: legacy mapping, then conflict
resolution, producing either the validation error or the full descriptor. -/
def upsertTranslate (study : Record) (on_conflict : Option String) :
    Except HTTPError UpsertRequest :=
  match resolveConflictColumn (applyLegacyFieldMapping study) on_conflict with
  | Except.error e => Except.error e
  | Except.ok c =>
    Except.ok
      { record := applyLegacyFieldMapping study
      , on_conflict := c
      , returning := "representation"
      , ignore_duplicate_updates := false }

/-- Execution of `upsert_study` against a backend, paired with the number of
remote calls performed: zero on the validation-error path (the error is
raised before the `try` block that performs the remote call), one otherwise. -/
def upsertStudyTrace (backend : UpsertRequest → BackendOutcome) (study : Record)
    (on_conflict : Option String) : Except HTTPError Value × Nat :=
  match upsertTranslate study on_conflict with
  | Except.error e => (Except.error e, 0)
  | Except.ok req => (mapBackendResult (backend req), 1)

/-- Appending a binding for key `k` at the end of a record makes `k` present. -/
theorem hasField_append_single (r : Record) (k : String) (v : Value) :
    hasField (r ++ [(k, v)]) k = true := by
  simp only [hasField, List.find?_isSome]
  exact ⟨(k, v), by simp, by simp⟩

/-- A present key has a value. -/
theorem exists_getField_of_hasField (r : Record) (k : String)
    (h : hasField r k = true) : ∃ v, getField r k = some v := by
  unfold hasField at h
  unfold getField
  cases hf : r.find? (fun p => p.1 == k) with
  | none => rw [hf] at h; simp at h
  | some p => exact ⟨p.2, rfl⟩

/-- Claim C6 (confirmed): the legacy rename `design` to `study_design`
performed by `upsert_study` is idempotent: applying it twice to any record
yields the same record as applying it once. -/
theorem applyLegacyFieldMapping_idempotent (study : Record) :
    applyLegacyFieldMapping (applyLegacyFieldMapping study) =
      applyLegacyFieldMapping study := by
  by_cases h : (hasField study "design" && !(hasField study "study_design")) = true
  · have hd : hasField study "design" = true := by
      cases hhd : hasField study "design"
      · rw [hhd] at h; simp at h
      · rfl
    obtain ⟨v, hv⟩ := exists_getField_of_hasField study "design" hd
    have hmapped : applyLegacyFieldMapping study =
        eraseField study "design" ++ [("study_design", v)] := by
      unfold applyLegacyFieldMapping
      rw [if_pos h, hv]
    have hsd : hasField (eraseField study "design" ++ [("study_design", v)])
        "study_design" = true :=
      hasField_append_single _ _ _
    rw [hmapped]
    unfold applyLegacyFieldMapping
    rw [hsd]
    simp
  · have hid : applyLegacyFieldMapping study = study := by
      unfold applyLegacyFieldMapping
      rw [if_neg h]
    rw [hid, hid]

/-- Claim C4 (confirmed): automatic conflict-column selection scans the
identity priority `[doi, pmid]` in order and returns the first field whose
value is present and non-empty; in particular a record with both a
non-empty doi and a non-empty pmid always resolves to doi. -/
theorem resolveConflictColumn_doi_first (r : Record) (s t : String)
    (hdoi : getField r "doi" = some (Value.str s)) (hs : s ≠ "")
    (_hpmid : getField r "pmid" = some (Value.str t)) (_ht : t ≠ "") :
    resolveConflictColumn r none = Except.ok "doi"
    ∧ ∀ r' : Record,
        resolveConflictColumn r' none =
          (match identityFieldPriority.find? (fun f => fieldTruthy r' f) with
           | some f => Except.ok f
           | none => Except.error upsertValidationError) := by
  constructor
  · have h1 : fieldTruthy r "doi" = true := by
      simp [fieldTruthy, hdoi, valueTruthy, hs]
    simp [resolveConflictColumn, autoConflictColumn, h1]
  · intro r'
    cases hd : fieldTruthy r' "doi" <;> cases hp : fieldTruthy r' "pmid" <;>
      simp [resolveConflictColumn, autoConflictColumn, identityFieldPriority,
        List.find?, hd, hp]

/-- Witness for claim C4 at a record carrying both identifiers. -/
theorem resolveConflictColumn_doi_first_witness :
    resolveConflictColumn
      [("doi", Value.str "10.1000/mg1"), ("pmid", Value.str "12345")] none =
      Except.ok "doi" :=
  (resolveConflictColumn_doi_first
    [("doi", Value.str "10.1000/mg1"), ("pmid", Value.str "12345")]
    "10.1000/mg1" "12345" rfl (by decide) rfl (by decide)).1

/-- Claim C5 (confirmed): an upsert record (after legacy mapping) with
neither a truthy doi nor a truthy pmid and no explicit conflict column is
rejected with the 400 validation error, and the backend is called zero
times: the failure happens before any remote interaction, whatever the
backend would answer. -/
theorem upsertStudy_missing_identity (study : Record)
    (backend : UpsertRequest → BackendOutcome)
    (hdoi : fieldTruthy (applyLegacyFieldMapping study) "doi" = false)
    (hpmid : fieldTruthy (applyLegacyFieldMapping study) "pmid" = false) :
    upsertStudyTrace backend study none = (Except.error upsertValidationError, 0)
    ∧ upsertValidationError.status = 400 := by
  refine ⟨?_, rfl⟩
  simp [upsertStudyTrace, upsertTranslate, resolveConflictColumn,
    autoConflictColumn, hdoi, hpmid]

/-- Witness for claim C5 at a record with only a title field. -/
theorem upsertStudy_missing_identity_witness :
    upsertStudyTrace (fun _ => BackendOutcome.ok Value.null)
      [("title", Value.str "Magnesium study")] none =
      (Except.error upsertValidationError, 0) :=
  (upsertStudy_missing_identity _ _ (by decide) (by decide)).1

/-- Claim C10 (confirmed): an explicitly supplied but empty `on_conflict`
parameter behaves exactly like an absent one (the guard is a truthiness
test), so automatic resolution runs and a record lacking both identity
fields is rejected rather than the empty string being passed through. -/
theorem upsertStudy_empty_on_conflict (backend : UpsertRequest → BackendOutcome)
    (study : Record) :
    upsertStudyTrace backend study (some "") = upsertStudyTrace backend study none
    ∧ upsertStudyTrace backend [] (some "") =
        (Except.error upsertValidationError, 0) := by
  constructor
  · rfl
  · rfl

/-- Claim C9 (confirmed): when the backend raises `APIError` with a detail
payload, both handlers surface that payload verbatim in a 400 response; any
other backend exception becomes a 500 carrying its message; and the only
validation error raised by conflict resolution is the 400 identity error. -/
theorem backendError_mapping (req : FilterRequest) (study : Record)
    (oc : Option String) (c : String) (detail : Value) (rest : List Value)
    (msg : String)
    (hok : resolveConflictColumn (applyLegacyFieldMapping study) oc = Except.ok c) :
    (listStudiesTrace (fun _ => BackendOutcome.apiError (detail :: rest)) req).1 =
      Except.error { status := 400, detail := detail }
    ∧ (listStudiesTrace (fun _ => BackendOutcome.exc msg) req).1 =
      Except.error { status := 500, detail := Value.str msg }
    ∧ (upsertStudyTrace (fun _ => BackendOutcome.apiError (detail :: rest)) study oc).1 =
      Except.error { status := 400, detail := detail }
    ∧ (upsertStudyTrace (fun _ => BackendOutcome.exc msg) study oc).1 =
      Except.error { status := 500, detail := Value.str msg }
    ∧ ∀ (r : Record) (e : HTTPError),
        resolveConflictColumn r none = Except.error e → e = upsertValidationError := by
  refine ⟨?_, ?_, ?_, ?_, ?_⟩
  · simp [listStudiesTrace, mapBackendResult]
  · simp [listStudiesTrace, mapBackendResult]
  · simp [upsertStudyTrace, upsertTranslate, hok, mapBackendResult]
  · simp [upsertStudyTrace, upsertTranslate, hok, mapBackendResult]
  · intro r e he
    cases hd : fieldTruthy r "doi" <;> cases hp : fieldTruthy r "pmid" <;>
      simp [resolveConflictColumn, autoConflictColumn, hd, hp] at he
    exact he.symm

/-- Witness for claim C9: a backend failure with detail payload `boom` is
surfaced verbatim as a 400 by both handlers. -/
theorem backendError_mapping_witness :
    (listStudiesTrace (fun _ => BackendOutcome.apiError [Value.str "boom"])
      ⟨none, none, none, none, none, none, none, none, 200⟩).1 =
      Except.error { status := 400, detail := Value.str "boom" }
    ∧ (upsertStudyTrace (fun _ => BackendOutcome.apiError [Value.str "boom"])
      [("doi", Value.str "10.1000/mg1")] none).1 =
      Except.error { status := 400, detail := Value.str "boom" } := by
  have h := backendError_mapping ⟨none, none, none, none, none, none, none, none, 200⟩
    [("doi", Value.str "10.1000/mg1")] none "doi" (Value.str "boom") [] "kaput" rfl
  exact ⟨h.1, h.2.2.1⟩

/-- Claim C7 (confirmed): a request with every filter parameter absent emits
the empty predicate list, whatever the order string and limit are. -/
theorem translateFilters_no_params (o : Option String) (l : Int) :
    translateFilters ⟨none, none, none, none, none, none, none, o, l⟩ = [] := rfl

/-- Claim C2 (confirmed): for a non-empty title value, the emitted ILIKE
pattern is the value wrapped in the wildcard marker `%` on both sides when
the value contains neither `%` nor `_`, and the value unchanged when it
already contains a wildcard marker. -/
theorem ilike_pattern_wrapping (t : String) (h : t ≠ "") :
    (containsChar t '%' = false → containsChar t '_' = false →
      translateFilters ⟨none, none, some t, none, none, none, none, none, 200⟩ =
        [Predicate.ilike "title" ("%" ++ t ++ "%")])
    ∧ (containsChar t '%' = true ∨ containsChar t '_' = true →
      translateFilters ⟨none, none, some t, none, none, none, none, none, 200⟩ =
        [Predicate.ilike "title" t]) := by
  have hbeq : (t == "") = false := by simpa using h
  constructor
  · intro h1 h2
    simp [translateFilters, optStrFilter, optIntFilter, ilikePattern, hbeq, h1, h2]
  · intro h12
    rcases h12 with h1 | h1 <;>
      simp [translateFilters, optStrFilter, optIntFilter, ilikePattern, hbeq, h1]

/-- Witness for claim C2: the plain value `magnesium` is wrapped, and the
value `mag%` carrying a wildcard is passed through unchanged. -/
theorem ilike_pattern_wrapping_witness :
    translateFilters ⟨none, none, some "magnesium", none, none, none, none, none, 200⟩ =
      [Predicate.ilike "title" "%magnesium%"]
    ∧ translateFilters ⟨none, none, some "mag%", none, none, none, none, none, 200⟩ =
      [Predicate.ilike "title" "mag%"] :=
  ⟨(ilike_pattern_wrapping "magnesium" (by decide)).1 (by decide) (by decide),
   (ilike_pattern_wrapping "mag%" (by decide)).2 (Or.inl (by decide))⟩

/-- Counterexample to claim C1 as stated: for the request with
tag=magnesium, year_gte=2015, order=year.desc and limit=10 the translated
descriptor is not the claimed one, because the source applies the year
bound before the tag containment, so the predicate list does not start with
the array-contains clause. -/
theorem listStudies_c1_order_counterexample :
    listStudiesQuery ⟨none, none, none, some 2015, none, some "magnesium",
        none, some "year.desc", 10⟩ ≠
      { select := studiesSelect
      , predicates := [Predicate.contains "tags" ["magnesium"],
          Predicate.gte "year" 2015]
      , sort := some { field := "year", descending := true, nullsFirst := false }
      , limit := 10 } := by decide

/-- Claim C1 (corrected): the request with tag=magnesium, year_gte=2015,
order=year.desc and limit=10 translates to the predicates
gte(year, 2015) followed by array-contains(tags, magnesium), in that order,
with sort field year descending and row limit 10. -/
theorem listStudies_c1_translation :
    listStudiesQuery ⟨none, none, none, some 2015, none, some "magnesium",
        none, some "year.desc", 10⟩ =
      { select := studiesSelect
      , predicates := [Predicate.gte "year" 2015,
          Predicate.contains "tags" ["magnesium"]]
      , sort := some { field := "year", descending := true, nullsFirst := false }
      , limit := 10 } := by decide

/-- Counterexample to claim C3 as stated: the order-parsing code of
`list_studies` applies no legacy alias rewrite, so the order string
design.asc does not emit the sort field study_design. -/
theorem translateSort_c3_alias_counterexample :
    translateSort (some "design.asc") ≠
      some { field := "study_design", descending := false, nullsFirst := false } := by
  decide

/-- Claim C3 (corrected): no alias rewrite is applied to the sort field;
the order string design.asc emits the field design unchanged, with
direction ascending. -/
theorem translateSort_c3_no_alias :
    translateSort (some "design.asc") =
      some { field := "design", descending := false, nullsFirst := false } := by
  decide

/-- Claim C8 (confirmed): every non-empty order string emits a sort
specification (parsing never fails), and that specification is descending
exactly when a direction token exists and lowers to desc; any other token,
and an absent token as in a bare field name, yields ascending. -/
theorem translateSort_permissive_direction (o : String) (h : o ≠ "") :
    ∃ s, translateSort (some o) = some s ∧
      (s.descending = true ↔
        ∃ d, (splitDot o).get? 1 = some d ∧ strLower d = "desc") := by
  have hbeq : (o == "") = false := by simpa using h
  refine ⟨translateSortStr o, by simp [translateSort, hbeq], ?_⟩
  rcases hsp : splitDot o with _ | ⟨a, rest⟩
  · simp [translateSortStr, sortDirDesc, hsp]
  · rcases rest with _ | ⟨d, rest'⟩
    · simp [translateSortStr, sortDirDesc, hsp]
    · simp [translateSortStr, sortDirDesc, hsp, beq_iff_eq]

/-- Witness for claim C8 at the bare order string year: a sort is emitted
and it is ascending. -/
theorem translateSort_permissive_direction_witness :
    ∃ s, translateSort (some "year") = some s ∧
      (s.descending = true ↔
        ∃ d, (splitDot "year").get? 1 = some d ∧ strLower d = "desc") :=
  translateSort_permissive_direction "year" (by decide)
